import Mathlib

/-!
Verification development for the retrieval-augmented quiz backend.

The Python sources are shallowly embedded: pure computation is translated
to Lean functions; external collaborators (the Pinecone index, the OpenAI
embedding and chat clients, the standard json parser) appear as explicit
function parameters (oracles), because the repository code only consumes
their results.  Machine floats that carry similarity scores are modelled
as rationals.
-/

namespace PrathamInc

/-- One match returned by the vector index query, as consumed by
PineconeService.get_relevant_chunks: an id, a similarity score, and the
metadata fields the service reads (each read with a default, hence
optional here; the metadata key named class in Python is class_name). -/
structure PineMatch where
  id : String
  score : ℚ
  chunk_text : Option String
  page_number : Option Nat
  class_name : Option String
  source_file : Option String
deriving DecidableEq

/-- One formatted retrieval chunk as built in the loop of
get_relevant_chunks (src/backend/app/services/pinecone_service.py,
lines 78-89). -/
structure RetrievalChunk where
  text : String
  page_number : Option Nat
  class_name : Option String
  source : Option String
  score : ℚ
  chunk_id : String
deriving DecidableEq

/-- The external vector store: query takes the query embedding, the
requested top_k and the optional class filter, and returns ranked
matches.  The namespace argument is a fixed configuration value and is
omitted. -/
structure VectorIndex where
  query : List ℚ → Nat → Option String → List PineMatch

/-- The external embedding client used for queries. -/
structure EmbeddingClient where
  embed_query : String → List ℚ

/-- Formatting of one match into a chunk dictionary, exactly the append
body of the loop in get_relevant_chunks. -/
def formatMatch (m : PineMatch) : RetrievalChunk :=
  ⟨m.chunk_text.getD "", m.page_number, m.class_name, m.source_file, m.score, m.id⟩

/-- Embedding of PineconeService.get_relevant_chunks
(src/backend/app/services/pinecone_service.py, lines 25-92): enhance the
query with the topic name when present, embed it, double top_k when a
class filter is given, query the index, keep matches with score at least
0.25, and truncate to the originally requested top_k.  The Python tail
is chunks[:top_k] if chunks else [], which equals List.take top_k. -/
def get_relevant_chunks (index : VectorIndex) (emb : EmbeddingClient)
    (query : String) (topic_name : Option String) (class_level : Option String)
    (top_k : Nat) : List RetrievalChunk :=
  let enhanced_query :=
    match topic_name with
    | some t => t ++ " " ++ query
    | none => query
  let query_embedding := emb.embed_query enhanced_query
  let query_top_k := if class_level.isSome then top_k * 2 else top_k
  let results := index.query query_embedding query_top_k class_level
  let chunks := (results.filter (fun m => (0.25 : ℚ) ≤ m.score)).map formatMatch
  chunks.take top_k

/-- Embedding of PineconeService.search_by_topic
(src/backend/app/services/pinecone_service.py, lines 94-115). -/
def search_by_topic (index : VectorIndex) (emb : EmbeddingClient)
    (topic_name : String) (class_level : String) (top_k : Nat) :
    List RetrievalChunk :=
  get_relevant_chunks index emb (topic_name ++ " " ++ class_level)
    (some topic_name) (some class_level) top_k

/-- Descending-score order on index matches. -/
def matchDesc (a b : PineMatch) : Prop := b.score ≤ a.score

/-- Descending-score order on formatted chunks. -/
def chunkDesc (a b : RetrievalChunk) : Prop := b.score ≤ a.score

instance : DecidableRel matchDesc := fun _m _n => inferInstanceAs (Decidable (_ ≤ _))

instance : DecidableRel chunkDesc := fun _m _n => inferInstanceAs (Decidable (_ ≤ _))

/-- Concrete index for the C1 witness: a fixed descending match list. -/
def witnessIndex : VectorIndex :=
  ⟨fun _ _ _ =>
    [⟨"a", (9 : ℚ)/10, some "ta", some 3, some "Class VIII", some "f.pdf"⟩,
     ⟨"b", (3 : ℚ)/10, some "tb", none, none, none⟩,
     ⟨"c", (1 : ℚ)/10, none, none, none, none⟩]⟩

/-- Concrete embedding client for the C1 witness. -/
def witnessEmb : EmbeddingClient := ⟨fun _ => []⟩

/-- JSON values as produced by the Python standard json parser.  Objects
are duplicate-free key-value lists (json.loads collapses duplicate keys),
numbers are modelled as rationals. -/
inductive Json where
  | null
  | bool (b : Bool)
  | num (q : ℚ)
  | str (s : String)
  | arr (elems : List Json)
  | obj (fields : List (String × Json))

/-- Python dict key access on a parsed JSON object (None on a missing
key or a non-object). -/
def Json.lookup : Json → String → Option Json
  | Json.obj fields, key => List.lookup key fields
  | _, _ => none

/-- Python dict.get with a default. -/
def Json.getD (j : Json) (key : String) (d : Json) : Json :=
  (j.lookup key).getD d

/-- The questions list the quiz router reads from a quiz dictionary via
quiz_data.get with default the empty list
(src/backend/app/routers/quiz.py, line 54). -/
def Json.questions_list (j : Json) : List Json :=
  match j.lookup "questions" with
  | some (Json.arr xs) => xs
  | _ => []

/-- Embedding of the tail of LLMService.generate_quiz
(src/backend/app/services/llm_service.py, lines 303-309): the model
response text is handed to the external json parser, modelled by the
loads parameter; on parse failure the fallback dictionary with an empty
questions array is returned and no exception escapes. -/
def generate_quiz (loads : String → Option Json) (model_response : String) : Json :=
  match loads model_response with
  | some quiz_data => quiz_data
  | none => Json.obj [("questions", Json.arr [])]

/-- One row of the eval_data list built by LLMService.evaluate_answers
(src/backend/app/services/llm_service.py, lines 329-341): the fields of
the question dictionary read with dict.get, plus the student answer
looked up by question id (empty when the id is absent or not a
string). -/
structure EvalItem where
  question_id : Option Json
  question : Option Json
  question_type : Option Json
  options : Json
  correct_answer : Option Json
  student_answer : String

/-- Embedding of the eval_data construction loop of evaluate_answers:
one row per quiz question, in order. -/
def build_eval_data (quiz_questions : List Json)
    (student_answers : List (String × String)) : List EvalItem :=
  quiz_questions.map (fun q =>
    let qid := q.lookup "question_id"
    let student_answer :=
      match qid with
      | some (Json.str s) => (List.lookup s student_answers).getD ""
      | _ => ""
    ⟨qid, q.lookup "question", q.lookup "question_type",
      q.getD "options" (Json.arr []), q.lookup "correct_answer", student_answer⟩)

/-- Embedding of LLMService.evaluate_answers
(src/backend/app/services/llm_service.py, lines 311-418): the prompt
assembly is behaviourally irrelevant, so the embedding keeps the
eval_data construction, hands the model response to the external json
parser, and on parse failure returns the fallback dictionary of lines
405-418.  The extracted_text parameter is only interpolated into the
prompt and therefore unused here. -/
def evaluate_answers (loads : String → Option Json) (model_response : String)
    (quiz_questions : List Json) (student_answers : List (String × String))
    (_extracted_text : String) (topic_name : String) : Json :=
  let eval_data := build_eval_data quiz_questions student_answers
  match loads model_response with
  | some evaluation => evaluation
  | none => Json.obj
      [("total_questions", Json.num eval_data.length),
       ("correct_count", Json.num 0),
       ("score_percentage", Json.num 0),
       ("question_results", Json.arr []),
       ("topics_to_review", Json.arr [Json.str topic_name]),
       ("overall_feedback", Json.str "Evaluation completed. Please review your answers.")]

/-- A Python exception as it can arise inside the evaluation handlers:
an HTTPException carrying a status and a detail, or a TypeError from a
call with a missing required argument. -/
inductive PyErr where
  | httpExc (status : Nat) (detail : String)
  | typeError (msg : String)

/-- Python str of the exception: starlette HTTPException prints as
status colon detail, TypeError prints its message. -/
def PyErr.str : PyErr → String
  | PyErr.httpExc status detail => toString status ++ ": " ++ detail
  | PyErr.typeError msg => msg

/-- Outcome of a request handler: a typed response or an HTTP error
response produced from a raised HTTPException. -/
inductive HandlerResult (α : Type) where
  | ok (value : α)
  | httpError (status : Nat) (detail : String)

/-- The value stored per quiz id in the in-memory quiz_storage dict
(src/backend/app/routers/quiz.py, lines 67-71). -/
structure QuizData where
  questions : List Json
  topic_id : String
  topic_name : String

/-- The QuizResponse schema fields returned by the quiz lookup. -/
structure QuizResponse where
  quiz_id : String
  topic_id : String
  topic_name : String
  questions : List Json
  total_questions : Nat

/-- Embedding of the get_quiz handler
(src/backend/app/routers/quiz.py, lines 85-112): an unknown id raises
HTTPException 404 outside any try block, so it reaches the client as a
404 response. -/
def get_quiz (storage : List (String × QuizData)) (quiz_id : String) :
    HandlerResult QuizResponse :=
  match List.lookup quiz_id storage with
  | none => HandlerResult.httpError 404 ("Quiz " ++ quiz_id ++ " not found")
  | some quiz_data =>
      HandlerResult.ok
        ⟨quiz_id, quiz_data.topic_id, quiz_data.topic_name,
          quiz_data.questions, quiz_data.questions.length⟩

/-- The EvaluationResponse schema fields, with the numeric and list
fields kept as the JSON values the handler extracts from the model
evaluation (pydantic validation is outside this core). -/
structure EvaluationResponse where
  quiz_id : String
  total_questions : Json
  correct_count : Json
  score_percentage : Json
  question_results : List Json
  topics_to_review : Json
  feedback : Json

/-- Embedding of the question_results formatting loop shared by both
evaluation handlers (src/backend/app/routers/evaluation.py, lines
118-126 and 176-184): one formatted dictionary per entry of the model
question_results array, with per-field defaults.  A present
question_results value that is not an array would raise in Python when
iterated; the inputs used below are arrays or absent. -/
def format_question_results (evaluation : Json) : List Json :=
  match evaluation.lookup "question_results" with
  | some (Json.arr results) =>
      results.enum.map (fun p =>
        Json.obj
          [("question_id", (p.2.lookup "question_id").getD (Json.str ("q" ++ toString (p.1 + 1)))),
           ("is_correct", (p.2.lookup "is_correct").getD (Json.bool false)),
           ("feedback", (p.2.lookup "feedback").getD (Json.str "")),
           ("needs_review", (p.2.lookup "needs_review").getD (Json.bool false))])
  | _ => []

/-- Embedding of the EvaluationResponse construction shared by both
evaluation handlers (src/backend/app/routers/evaluation.py, lines
128-142 and 186-196): every numeric field is read from the model
evaluation dictionary with a default and passed through without any
validation or arithmetic. -/
def build_evaluation_response (quiz_id : String) (evaluation : Json) :
    EvaluationResponse :=
  let question_results := format_question_results evaluation
  ⟨quiz_id,
   evaluation.getD "total_questions" (Json.num question_results.length),
   evaluation.getD "correct_count" (Json.num 0),
   evaluation.getD "score_percentage" (Json.num 0),
   question_results,
   evaluation.getD "topics_to_review" (Json.arr []),
   evaluation.getD "overall_feedback" (Json.str "")⟩

/-- Python TypeError text for the evaluate-json call that omits the
required extracted_text parameter of LLMService.evaluate_answers
(quotation marks of the CPython message dropped). -/
def missing_argument_message : String :=
  "LLMService.evaluate_answers() missing 1 required positional argument: extracted_text"

/-- Embedding of the evaluate_answers_json handler
(src/backend/app/routers/evaluation.py, lines 145-201).  The body runs
inside a try whose only handler is except Exception, which wraps any
exception, including the HTTPException 404 the body itself raises for an
unknown quiz id, into HTTPException 500.  For a known quiz id the body
calls llm_service.evaluate_answers with only quiz_questions,
student_answers and topic_name, omitting the required extracted_text
parameter, so Python raises TypeError before the service body runs. -/
def evaluate_answers_json (storage : List (String × QuizData))
    (quiz_id : String) (_answers : List (String × String)) :
    HandlerResult EvaluationResponse :=
  let body : Except PyErr EvaluationResponse :=
    match List.lookup quiz_id storage with
    | none => Except.error (PyErr.httpExc 404 ("Quiz " ++ quiz_id ++ " not found"))
    | some _quiz_data => Except.error (PyErr.typeError missing_argument_message)
  match body with
  | Except.ok r => HandlerResult.ok r
  | Except.error e => HandlerResult.httpError 500 ("Error evaluating answers: " ++ e.str)

/-- Embedding of the evaluate_answers_multipart handler
(src/backend/app/routers/evaluation.py, lines 61-152) on the path where
an uploaded file is present, so extracted_text is bound.  This handler
has a dedicated except HTTPException clause that re-raises, so its 404
for an unknown quiz id survives.  The answers argument models the
already parsed answers JSON. -/
def evaluate_answers_multipart (storage : List (String × QuizData))
    (loads : String → Option Json) (model_response : String)
    (quiz_id : String) (answers : List (String × String))
    (extracted_text : String) : HandlerResult EvaluationResponse :=
  match List.lookup quiz_id storage with
  | none => HandlerResult.httpError 404 ("Quiz " ++ quiz_id ++ " not found")
  | some quiz_data =>
      let evaluation := evaluate_answers loads model_response quiz_data.questions
        answers extracted_text quiz_data.topic_name
      HandlerResult.ok (build_evaluation_response quiz_id evaluation)

/-- A parseable but invariant-violating model evaluation: json.loads
applied to the corresponding JSON text yields exactly this dictionary,
with correct_count 7 exceeding total_questions 5 and a score that is not
100 times correct over total. -/
def invariantBreakingEvaluation : Json :=
  Json.obj
    [("total_questions", Json.num 5),
     ("correct_count", Json.num 7),
     ("score_percentage", Json.num 10),
     ("question_results", Json.arr []),
     ("topics_to_review", Json.arr []),
     ("overall_feedback", Json.str "ok")]

/-- Store holding the quiz referenced by the C5 counterexample. -/
def invariantBreakingStorage : List (String × QuizData) :=
  [("quiz-1", ⟨[], "t1", "Light"⟩)]

/-- Python str.split core, by structural recursion on a fuel bound that
always suffices (each step consumes at least one character, the
separator being non-empty at every use site, so the fuel-exhausted base
is unreachable). -/
def splitGo (sep : List Char) : Nat → List Char → List Char → List (List Char)
  | 0, l, acc => [acc.reverse ++ l]
  | Nat.succ fuel, l, acc =>
    match l with
    | [] => [acc.reverse]
    | c :: rest =>
      if sep.isPrefixOf l then
        acc.reverse :: splitGo sep fuel (l.drop sep.length) []
      else
        splitGo sep fuel rest (c :: acc)

/-- Python str.split with a non-empty separator: non-overlapping
left-to-right splits, keeping empty segments, one segment even for the
empty string.  Defined on character lists because the built-in position
based String.splitOn does not reduce in the kernel. -/
def pySplit (s sep : String) : List String :=
  (splitGo sep.data s.data.length s.data []).map String.mk

/-- Python str.replace core, same fuel discipline as splitGo. -/
def replaceGo (pattern repl : List Char) : Nat → List Char → List Char
  | 0, l => l
  | Nat.succ fuel, l =>
    match l with
    | [] => []
    | c :: rest =>
      if pattern.isPrefixOf l then
        repl ++ replaceGo pattern repl fuel (l.drop pattern.length)
      else
        c :: replaceGo pattern repl fuel rest

/-- Python str.replace with a non-empty pattern: all non-overlapping
left-to-right occurrences. -/
def pyReplace (s pattern repl : String) : String :=
  String.mk (replaceGo pattern.data repl.data s.data.length s.data)

/-- Python str.strip: leading and trailing whitespace removed. -/
def pyStrip (s : String) : String :=
  String.mk (((s.data.dropWhile Char.isWhitespace).reverse.dropWhile
    Char.isWhitespace).reverse)

/-- Python str.startswith. -/
def pyStartsWith (s p : String) : Bool :=
  p.data.isPrefixOf s.data

/-- The key point line test of the summary parser
(src/backend/app/services/llm_service.py, lines 118-122): the stripped
line is non-empty and starts with one of the literal markers 1. to 5.
or the dash. -/
def isKeyPointLine (point : String) : Bool :=
  let t := pyStrip point
  t != "" &&
    (pyStartsWith t "1." || pyStartsWith t "2." || pyStartsWith t "3." ||
     pyStartsWith t "4." || pyStartsWith t "5." || pyStartsWith t "-")

/-- The parts list of the parsing section of generate_summary: the
response split on the KEY POINTS: marker. -/
def summaryParts (content : String) : List String :=
  pySplit content "KEY POINTS:"

/-- The summary_text of generate_summary: the part before the first
KEY POINTS: marker, with every SUMMARY: label removed, stripped. -/
def strippedSummary (content : String) : String :=
  pyStrip (pyReplace ((summaryParts content).headD "") "SUMMARY:" "")

/-- The line list the key point extraction of generate_summary iterates
over: the newline split of the part between the first and any second
KEY POINTS: marker, empty when the marker is absent. -/
def keyPointLines (content : String) : List String :=
  match summaryParts content with
  | _ :: key_points_text :: _ => pySplit key_points_text "\n"
  | _ => []

/-- The key points list comprehension of generate_summary: the stripped
marker lines, before the cap. -/
def rawKeyPoints (content : String) : List String :=
  (keyPointLines content).filterMap
    (fun point => if isKeyPointLine point then some (pyStrip point) else none)

/-- Embedding of the response parsing section of
LLMService.generate_summary (src/backend/app/services/llm_service.py,
lines 106-128): when the SUMMARY: marker occurs, split on KEY POINTS:,
strip the SUMMARY: label from the part before it, and collect the
stripped marker lines of the part after it; the returned summary falls
back to the whole response when the stripped part is empty, and the key
points are capped at 5. -/
def generate_summary_parse (content : String) : String × List String :=
  if (pySplit content "SUMMARY:").length > 1 then
    ((if strippedSummary content = "" then content else strippedSummary content),
      (rawKeyPoints content).take 5)
  else
    (content, [])

/-- Modelled from the spec: a line beginning with an enumerator or
bullet marker, as the claim words it; the prompt of generate_summary
asks for bullet points introduced by the bullet character, so the
bullet, the dash, and any decimal enumerator followed by a dot
qualify. -/
def specKeyPointLine (point : String) : Bool :=
  let t := pyStrip point
  t != "" &&
    (pyStartsWith t "•" || pyStartsWith t "-" ||
      (let ds := t.data.takeWhile Char.isDigit
       ds != [] && List.isPrefixOf ['.'] (t.data.drop ds.length)))

/-- Modelled from the spec: the key points the claim describes, namely
the lines after the KEY POINTS: marker that begin with an enumerator or
bullet marker, capped at 5. -/
def specKeyPoints (content : String) : List String :=
  match pySplit content "KEY POINTS:" with
  | _ :: after :: _ =>
      (((pySplit after "\n").filter specKeyPointLine).map pyStrip).take 5
  | _ => []

/-- A model response that follows the format the generate_summary prompt
itself requests: bullet key points introduced by the bullet
character. -/
def bulletContent : String :=
  "SUMMARY: Plants make food.\nKEY POINTS:\n• Light is needed\n• Water is needed"

/-- A model response whose key point lines use the markers the parser
does recognise, for exercising the marker-present branch of the C8
amended theorem. -/
def enumContent : String :=
  "SUMMARY: Plants make food.\nKEY POINTS:\n1. Light is needed\n- Water is needed"

/-- A Python value as it can appear where the chat code expects the
model reply: either a text value, or a generator object characterised by
the fragments iterating it yields and the StopIteration payload of its
return statement. -/
inductive PyChatValue where
  | pystr (s : String)
  | generator (yielded : List String) (ret : Option String)
deriving DecidableEq

/-- Embedding of LLMService.chat_with_context
(src/backend/app/services/llm_service.py, lines 130-205).  The body
contains a yield statement, so under Python semantics the whole def is a
generator function: calling it runs none of the body and returns a
generator object.  Iterating that generator executes the body: with
stream true it yields the non-null fragment contents in model order
(stream_chunks here); with stream false it reaches the return statement,
whose value (the full reply message_content) becomes the StopIteration
payload and is never yielded.  The prompt assembly does not affect which
value is produced and is omitted. -/
def chat_with_context (stream : Bool) (stream_chunks : List String)
    (message_content : String) : PyChatValue :=
  PyChatValue.generator
    (if stream then stream_chunks else [])
    (if stream then none else some message_content)

/-- The ChatResponse schema: the response field receives whatever value
the handler assigned, before any pydantic validation. -/
structure ChatResponse where
  response : PyChatValue
  sources : List Json

/-- Embedding of the non-streaming chat handler
(src/backend/app/routers/chat.py, lines 101-161): it calls
chat_with_context without the stream argument, which defaults to false,
and places the returned value in ChatResponse.response. -/
def chat (stream_chunks : List String) (message_content : String)
    (sources : List Json) : ChatResponse :=
  ⟨chat_with_context false stream_chunks message_content, sources⟩

/-- Python str.lower, character-wise. -/
def pyLower (s : String) : String :=
  String.mk (s.data.map Char.toLower)

/-- Python substring containment, via non-empty-separator split. -/
def pyContains (s sub : String) : Bool :=
  decide (1 < (pySplit s sub).length)

/-- Embedding of PDFIngestionPipeline.extract_class_from_filename
(src/ingestion/ingestion.py, lines 96-106): a fixed name-pattern to tag
mapping over the lowercased filename, with Unknown as the fallback. -/
def extract_class_from_filename (filename : String) : String :=
  let fl := pyLower filename
  if pyContains fl "class8" || pyContains fl "classviii" then "Class VIII"
  else if pyContains fl "class9" || pyContains fl "classix" then "Class IX"
  else if pyContains fl "class10" || pyContains fl "classx" then "Class X"
  else "Unknown"

/-- The persisted unit of the vector store, restricted to the metadata
fields the claims are about; the embedding vector and timestamp carry no
information for them. -/
structure IndexedRecord where
  id : String
  chunk_text : String
  page_number : Nat
  chunk_index : Nat
  source_file : String
  class_name : String
deriving DecidableEq

/-- Vector store upsert of one record: overwrite the record with the
same id if any, append otherwise (the upsert contract of the store). -/
def upsertOne : List IndexedRecord → IndexedRecord → List IndexedRecord
  | [], r => [r]
  | s :: rest, r => if s.id = r.id then r :: rest else s :: upsertOne rest r

/-- Vector store upsert of a record sequence, in order. -/
def upsertMany (store : List IndexedRecord) (records : List IndexedRecord) :
    List IndexedRecord :=
  records.foldl upsertOne store

/-- The chunk stream of PDFIngestionPipeline.process_book
(src/ingestion/ingestion.py, lines 158-203): pages whose text strips to
empty are skipped, every other page is chunked by the semantic chunker
(the external chunking call, an oracle here), and each chunk carries its
page number and its index within the page. -/
def page_chunks (chunker : String → List String)
    (pages : List (Nat × String)) : List (Nat × Nat × String) :=
  (pages.filter (fun p => pyStrip p.2 != "")).flatMap
    (fun p => (chunker p.2).enum.map (fun c => (p.1, c.1, c.2)))

/-- The record list process_book assembles for upserting: every chunk
receives a fresh uuid4 draw as its chunk id; the draws are modelled as a
stream indexed by the running chunk count, so a second run consumes
different draws. -/
def process_book_records (chunker : String → List String) (filename : String)
    (pages : List (Nat × String)) (uuids : Nat → String) : List IndexedRecord :=
  (page_chunks chunker pages).enum.map
    (fun k => ⟨uuids k.1, k.2.2.2, k.2.1, k.2.2.1, filename,
      extract_class_from_filename filename⟩)

/-- Chunker for the C6 runs: one chunk per page. -/
def oneChunkPerPage : String → List String := fun text => [text]

/-- Pages for the C6 runs: a single non-empty page. -/
def c6Pages : List (Nat × String) := [(1, "photosynthesis basics")]

/-- Records of the first ingestion run of the unchanged document, with
the uuid draws of that run. -/
def c6Run1 : List IndexedRecord :=
  process_book_records oneChunkPerPage "class8_science.pdf" c6Pages
    (fun k => "run1-" ++ toString k)

/-- Records of the second ingestion run of the same unchanged document:
uuid4 never repeats a draw, so the ids differ from the first run. -/
def c6Run2 : List IndexedRecord :=
  process_book_records oneChunkPerPage "class8_science.pdf" c6Pages
    (fun k => "run2-" ++ toString k)

/-- Chunk count of a per-document outcome: the count on success, zero on
failure (a failed document contributes nothing to the running total). -/
def okChunkCount : Except String Nat → Nat
  | Except.ok n => n
  | Except.error _ => 0

/-- Whether processing a document fails, as observed by the except
branch of the per-document loop. -/
def isFailedDoc (process : String → Except String Nat) (pdf : String) : Bool :=
  match process pdf with
  | Except.error _ => true
  | Except.ok _ => false

/-- One iteration of the per-document loop of
PDFIngestionPipeline.ingest_all_books (src/ingestion/ingestion.py, lines
271-288): on success the chunk count is added to the running total, on
failure the document joins the error report log and the loop
continues. -/
def ingest_step (process : String → Except String Nat)
    (acc : Nat × List String) (pdf : String) : Nat × List String :=
  match process pdf with
  | Except.ok n => (acc.1 + n, acc.2)
  | Except.error _ => (acc.1, acc.2 ++ [pdf])

/-- Embedding of PDFIngestionPipeline.ingest_all_books
(src/ingestion/ingestion.py, lines 249-296): the documents are processed
in sorted order; process_book and everything it calls is the oracle
process, whose error value models the exception the except branch
catches.  The result is the running chunk total and the sequence of
documents reported as failed. -/
def ingest_all_books (process : String → Except String Nat)
    (pdf_files : List String) : Nat × List String :=
  (pdf_files.mergeSort (fun a b => decide (a ≤ b))).foldl
    (ingest_step process) (0, [])

/-- Embedding of the batch loop of
PDFIngestionPipeline._upsert_chunks_to_pinecone
(src/ingestion/ingestion.py, lines 205-247): the vectors are upserted in
consecutive slices of batch_size; the except branch around each batch
re-raises, so the first failing batch aborts the whole call. -/
def upsert_batches (upsertBatch : List IndexedRecord → Except String Unit)
    (vectors : List IndexedRecord) (batch_size : Nat) : Except String Unit :=
  (List.range ((vectors.length + batch_size - 1) / batch_size)).forM
    (fun batch_num => upsertBatch ((vectors.drop (batch_num * batch_size)).take batch_size))

/-- C1: every retrieval call returns only matches with similarity score
at least 0.25, returns at most top_k of them, and, provided the store
returns its matches in descending similarity order, the returned list is
in descending similarity order as well (filtering and truncation
preserve the store order). -/
theorem get_relevant_chunks_threshold_topk_sorted
    (index : VectorIndex) (emb : EmbeddingClient) (query : String)
    (topic_name class_level : Option String) (top_k : Nat)
    (hsorted : ∀ qe k f, (index.query qe k f).Pairwise matchDesc) :
    (∀ c ∈ get_relevant_chunks index emb query topic_name class_level top_k,
        (0.25 : ℚ) ≤ c.score) ∧
    (get_relevant_chunks index emb query topic_name class_level top_k).length ≤ top_k ∧
    (get_relevant_chunks index emb query topic_name class_level top_k).Pairwise chunkDesc := by
  unfold get_relevant_chunks
  refine ⟨?_, ?_, ?_⟩
  · intro c hc
    have hc' := List.mem_of_mem_take hc
    obtain ⟨m, hm, rfl⟩ := List.mem_map.mp hc'
    have := (List.mem_filter.mp hm).2
    simpa [formatMatch] using of_decide_eq_true this
  · exact List.length_take_le _ _
  · refine List.Pairwise.sublist (List.take_sublist _ _) ?_
    rw [List.pairwise_map]
    exact (hsorted _ _ _).filter _

/-- C1 witness: the theorem instantiated at a concrete store whose
matches are in descending order, with top_k equal to 2. -/
theorem get_relevant_chunks_threshold_topk_sorted_witness :
    (∀ c ∈ get_relevant_chunks witnessIndex witnessEmb "photosynthesis" none none 2,
        (0.25 : ℚ) ≤ c.score) ∧
    (get_relevant_chunks witnessIndex witnessEmb "photosynthesis" none none 2).length ≤ 2 ∧
    (get_relevant_chunks witnessIndex witnessEmb "photosynthesis" none none 2).Pairwise chunkDesc :=
  get_relevant_chunks_threshold_topk_sorted witnessIndex witnessEmb
    "photosynthesis" none none 2 (fun _ _ _ =>
      show List.Pairwise matchDesc
        [⟨"a", (9 : ℚ)/10, some "ta", some 3, some "Class VIII", some "f.pdf"⟩,
         ⟨"b", (3 : ℚ)/10, some "tb", none, none, none⟩,
         ⟨"c", (1 : ℚ)/10, none, none, none, none⟩] by
        simp [List.pairwise_cons, matchDesc]
        norm_num)

/-- C2: when the model output for quiz generation is not parseable as
JSON, generate_quiz returns the fallback dictionary, whose question list
is empty; the embedded function is total, so no exception reaches the
caller. -/
theorem generate_quiz_parse_failure_empty
    (loads : String → Option Json) (model_response : String)
    (h : loads model_response = none) :
    generate_quiz loads model_response = Json.obj [("questions", Json.arr [])] ∧
    Json.questions_list (generate_quiz loads model_response) = [] := by
  unfold generate_quiz
  rw [h]
  exact ⟨rfl, rfl⟩

/-- C2 witness: the theorem applied to a parser that rejects the given
response text. -/
theorem generate_quiz_parse_failure_empty_witness :
    generate_quiz (fun _ => none) "not json" = Json.obj [("questions", Json.arr [])] ∧
    Json.questions_list (generate_quiz (fun _ => none) "not json") = [] :=
  generate_quiz_parse_failure_empty (fun _ => none) "not json" rfl

/-- C3: when the model output for evaluation is not parseable as JSON,
evaluate_answers returns the fallback dictionary with correct_count 0,
total_questions equal to the number of questions evaluated, and a
non-empty generic feedback string; the embedded function is total, so no
exception reaches the caller. -/
theorem evaluate_answers_parse_failure_fallback
    (loads : String → Option Json) (model_response : String)
    (quiz_questions : List Json) (student_answers : List (String × String))
    (extracted_text topic_name : String)
    (h : loads model_response = none) :
    (evaluate_answers loads model_response quiz_questions student_answers
        extracted_text topic_name).lookup "correct_count" = some (Json.num 0) ∧
    (evaluate_answers loads model_response quiz_questions student_answers
        extracted_text topic_name).lookup "total_questions" =
      some (Json.num quiz_questions.length) ∧
    (evaluate_answers loads model_response quiz_questions student_answers
        extracted_text topic_name).lookup "overall_feedback" =
      some (Json.str "Evaluation completed. Please review your answers.") ∧
    "Evaluation completed. Please review your answers." ≠ "" := by
  unfold evaluate_answers
  rw [h]
  refine ⟨rfl, ?_, rfl, by decide⟩
  simp [Json.lookup, List.lookup, build_eval_data]

/-- C3 witness: the theorem applied to a parser that rejects the given
response text, with a two-question quiz. -/
theorem evaluate_answers_parse_failure_fallback_witness :
    (evaluate_answers (fun _ => none) "broken output"
        [Json.obj [("question_id", Json.str "q1")],
         Json.obj [("question_id", Json.str "q2")]]
        [("q1", "answer one")] "scanned text" "Light").lookup "correct_count" =
      some (Json.num 0) ∧
    (evaluate_answers (fun _ => none) "broken output"
        [Json.obj [("question_id", Json.str "q1")],
         Json.obj [("question_id", Json.str "q2")]]
        [("q1", "answer one")] "scanned text" "Light").lookup "total_questions" =
      some (Json.num 2) ∧
    (evaluate_answers (fun _ => none) "broken output"
        [Json.obj [("question_id", Json.str "q1")],
         Json.obj [("question_id", Json.str "q2")]]
        [("q1", "answer one")] "scanned text" "Light").lookup "overall_feedback" =
      some (Json.str "Evaluation completed. Please review your answers.") ∧
    "Evaluation completed. Please review your answers." ≠ "" :=
  evaluate_answers_parse_failure_fallback (fun _ => none) "broken output"
    [Json.obj [("question_id", Json.str "q1")],
     Json.obj [("question_id", Json.str "q2")]]
    [("q1", "answer one")] "scanned text" "Light" rfl

/-- C4: evaluation of both lookups at the failing input, an unknown quiz
id.  The direct quiz lookup yields the intended 404, but the JSON
evaluation endpoint wraps its own 404 into a generic 500, because its
blanket except Exception clause catches the HTTPException it just
raised. -/
theorem unknown_quiz_id_outcomes :
    get_quiz ([] : List (String × QuizData)) "missing-quiz" =
      HandlerResult.httpError 404 "Quiz missing-quiz not found" ∧
    evaluate_answers_json ([] : List (String × QuizData)) "missing-quiz" [] =
      HandlerResult.httpError 500
        "Error evaluating answers: 404: Quiz missing-quiz not found" :=
  ⟨rfl, rfl⟩

/-- C9: for every request to the JSON evaluation endpoint whose quiz id
is present in the store, the handler returns a 500 response whose detail
wraps the TypeError for the omitted extracted_text argument; moreover
the handler can never return a successful response for any input. -/
theorem evaluate_answers_json_always_500
    (storage : List (String × QuizData)) (quiz_id : String)
    (answers : List (String × String))
    (h : (List.lookup quiz_id storage).isSome = true) :
    evaluate_answers_json storage quiz_id answers =
      HandlerResult.httpError 500
        ("Error evaluating answers: " ++ missing_argument_message) ∧
    ∀ r, evaluate_answers_json storage quiz_id answers ≠ HandlerResult.ok r := by
  unfold evaluate_answers_json
  cases hl : List.lookup quiz_id storage with
  | none => rw [hl] at h; exact absurd h (by simp)
  | some qd => exact ⟨by simp [hl, PyErr.str], by simp [hl]⟩

/-- C9 witness: the theorem applied to a store containing the requested
quiz id. -/
theorem evaluate_answers_json_always_500_witness :
    evaluate_answers_json [("quiz-1", ⟨[], "t1", "Light"⟩)] "quiz-1" [("q1", "A")] =
      HandlerResult.httpError 500
        ("Error evaluating answers: " ++ missing_argument_message) ∧
    ∀ r, evaluate_answers_json [("quiz-1", ⟨[], "t1", "Light"⟩)] "quiz-1" [("q1", "A")] ≠
      HandlerResult.ok r :=
  evaluate_answers_json_always_500 [("quiz-1", ⟨[], "t1", "Light"⟩)] "quiz-1"
    [("q1", "A")] rfl

/-- C5 counterexample: the multipart evaluation endpoint returns the
model-supplied counts verbatim, so a parseable model response with
correct_count 7 out of total_questions 5 and score_percentage 10 is
returned unchanged, violating both halves of the claimed invariant. -/
theorem evaluation_invariant_counterexample :
    evaluate_answers_multipart invariantBreakingStorage
        (fun _ => some invariantBreakingEvaluation) "model output"
        "quiz-1" [] "scan" =
      HandlerResult.ok (build_evaluation_response "quiz-1" invariantBreakingEvaluation) ∧
    (build_evaluation_response "quiz-1" invariantBreakingEvaluation).correct_count =
      Json.num 7 ∧
    (build_evaluation_response "quiz-1" invariantBreakingEvaluation).total_questions =
      Json.num 5 ∧
    (build_evaluation_response "quiz-1" invariantBreakingEvaluation).score_percentage =
      Json.num 10 ∧
    ¬ ((7 : ℚ) ≤ 5) ∧ (10 : ℚ) ≠ 100 * 7 / 5 :=
  ⟨rfl, rfl, rfl, rfl, by norm_num, by norm_num⟩

/-- C5 amended: the parse-failure fallback satisfies the invariant
(correct_count 0, total_questions equal to the number of questions,
score_percentage 0, with 0 at most the question count), and for any key
the model response does supply, the response field is the model value
passed through unvalidated; no division is ever computed. -/
theorem evaluation_response_invariant_amended
    (loads : String → Option Json) (model_response : String)
    (quiz_questions : List Json) (student_answers : List (String × String))
    (extracted_text topic_name quiz_id : String) :
    (loads model_response = none →
      (build_evaluation_response quiz_id (evaluate_answers loads model_response
          quiz_questions student_answers extracted_text topic_name)).correct_count =
        Json.num 0 ∧
      (build_evaluation_response quiz_id (evaluate_answers loads model_response
          quiz_questions student_answers extracted_text topic_name)).total_questions =
        Json.num quiz_questions.length ∧
      (build_evaluation_response quiz_id (evaluate_answers loads model_response
          quiz_questions student_answers extracted_text topic_name)).score_percentage =
        Json.num 0 ∧
      ((0 : ℚ) ≤ 0 ∧ (0 : ℚ) ≤ (quiz_questions.length : ℚ))) ∧
    (∀ v, (evaluate_answers loads model_response quiz_questions student_answers
        extracted_text topic_name).lookup "correct_count" = some v →
      (build_evaluation_response quiz_id (evaluate_answers loads model_response
          quiz_questions student_answers extracted_text topic_name)).correct_count = v) ∧
    (∀ v, (evaluate_answers loads model_response quiz_questions student_answers
        extracted_text topic_name).lookup "total_questions" = some v →
      (build_evaluation_response quiz_id (evaluate_answers loads model_response
          quiz_questions student_answers extracted_text topic_name)).total_questions = v) ∧
    (∀ v, (evaluate_answers loads model_response quiz_questions student_answers
        extracted_text topic_name).lookup "score_percentage" = some v →
      (build_evaluation_response quiz_id (evaluate_answers loads model_response
          quiz_questions student_answers extracted_text topic_name)).score_percentage = v) := by
  refine ⟨?_, ?_, ?_, ?_⟩
  · intro h
    unfold evaluate_answers
    rw [h]
    refine ⟨rfl, ?_, rfl, le_refl 0, Nat.cast_nonneg _⟩
    simp [build_evaluation_response, Json.getD, Json.lookup, List.lookup, build_eval_data]
  · intro v hv
    simp [build_evaluation_response, Json.getD, hv]
  · intro v hv
    simp [build_evaluation_response, Json.getD, hv]
  · intro v hv
    simp [build_evaluation_response, Json.getD, hv]

/-- C5 amended witness: the fallback half of the theorem instantiated at
a failing parse over a one-question quiz. -/
theorem evaluation_response_invariant_amended_witness :
    (build_evaluation_response "qz" (evaluate_answers (fun _ => none) "bad"
        [Json.obj []] [] "" "Light")).correct_count = Json.num 0 ∧
    (build_evaluation_response "qz" (evaluate_answers (fun _ => none) "bad"
        [Json.obj []] [] "" "Light")).total_questions =
      Json.num ([Json.obj []] : List Json).length ∧
    (build_evaluation_response "qz" (evaluate_answers (fun _ => none) "bad"
        [Json.obj []] [] "" "Light")).score_percentage = Json.num 0 ∧
    ((0 : ℚ) ≤ 0 ∧ (0 : ℚ) ≤ (([Json.obj []] : List Json).length : ℚ)) :=
  (evaluation_response_invariant_amended (fun _ => none) "bad" [Json.obj []] []
    "" "Light" "qz").1 rfl

/-- C8 counterexample: on a response whose key point lines begin with
the bullet character, the parser extracts no key points, although the
claim says the key points are exactly the lines beginning with an
enumerator or bullet marker. -/
theorem generate_summary_bullet_counterexample :
    (generate_summary_parse bulletContent).2 = [] ∧
    specKeyPoints bulletContent = ["• Light is needed", "• Water is needed"] ∧
    (generate_summary_parse bulletContent).2 ≠ specKeyPoints bulletContent := by
  decide

/-- A list comprehension with a filtering condition equals the filter
followed by the map. -/
theorem filterMap_if_eq_filter_map {α β : Type} (p : α → Bool) (g : α → β)
    (l : List α) :
    l.filterMap (fun x => if p x then some (g x) else none) =
      (l.filter p).map g := by
  induction l with
  | nil => rfl
  | cons a rest ih =>
    by_cases hp : p a
    · simp [List.filterMap_cons, List.filter_cons, hp, ih]
    · simp [List.filterMap_cons, List.filter_cons, hp, ih]

/-- C8 amended, an exact characterisation of the parser: if the
SUMMARY: marker is absent the whole response is the summary and the key
points are empty; if it is present, the key points are exactly the
stripped lines after the KEY POINTS: marker that begin with one of the
markers 1. to 5. or the dash (the bullet character the prompt requests
is not recognised), capped at 5, and the summary is the stripped
label-free part before the KEY POINTS: marker when that is non-empty
and the whole raw response otherwise; the parser is a total function,
so it never raises, and its key point list never exceeds 5 entries. -/
theorem generate_summary_parse_amended (content : String) :
    ((pySplit content "SUMMARY:").length ≤ 1 →
      generate_summary_parse content = (content, [])) ∧
    (1 < (pySplit content "SUMMARY:").length →
      (generate_summary_parse content).2 =
        (((keyPointLines content).filter isKeyPointLine).map pyStrip).take 5 ∧
      (strippedSummary content = "" →
        (generate_summary_parse content).1 = content) ∧
      (strippedSummary content ≠ "" →
        (generate_summary_parse content).1 = strippedSummary content)) ∧
    (generate_summary_parse content).2.length ≤ 5 := by
  have hraw : rawKeyPoints content =
      ((keyPointLines content).filter isKeyPointLine).map pyStrip :=
    filterMap_if_eq_filter_map isKeyPointLine pyStrip (keyPointLines content)
  by_cases hmark : 1 < (pySplit content "SUMMARY:").length
  · have he : generate_summary_parse content =
        ((if strippedSummary content = "" then content else strippedSummary content),
          (rawKeyPoints content).take 5) := by
      unfold generate_summary_parse
      rw [if_pos hmark]
    refine ⟨fun hle => absurd hmark (by omega), fun _ => ⟨?_, ?_, ?_⟩, ?_⟩
    · rw [he]
      show (rawKeyPoints content).take 5 = _
      rw [hraw]
    · intro hempty
      rw [he]
      show (if strippedSummary content = "" then content else strippedSummary content) = _
      rw [if_pos hempty]
    · intro hne
      rw [he]
      show (if strippedSummary content = "" then content else strippedSummary content) = _
      rw [if_neg hne]
    · rw [he]
      exact List.length_take_le _ _
  · have he : generate_summary_parse content = (content, []) := by
      unfold generate_summary_parse
      rw [if_neg hmark]
    exact ⟨fun _ => he, fun hgt => absurd hgt hmark, by rw [he]; simp⟩

/-- C8 amended witness: the marker-present half of the theorem at a
concrete response whose key point lines use the recognised markers,
together with the concrete value of the extraction at that input. -/
theorem generate_summary_parse_amended_witness :
    (generate_summary_parse enumContent).2 =
      (((keyPointLines enumContent).filter isKeyPointLine).map pyStrip).take 5 ∧
    (generate_summary_parse enumContent).1 = strippedSummary enumContent ∧
    (generate_summary_parse enumContent).2 =
      ["1. Light is needed", "- Water is needed"] ∧
    (generate_summary_parse enumContent).1 = "Plants make food." := by
  have h := (generate_summary_parse_amended enumContent).2.1 (by decide)
  exact ⟨h.1, h.2.2 (by decide), by decide, by decide⟩

/-- C10: every non-streaming call of chat_with_context returns a
generator object that yields nothing and hides the reply text in its
StopIteration payload; in particular it never returns a text value, so
the non-streaming chat endpoint never places the model reply text in
ChatResponse.response. -/
theorem chat_with_context_nonstreaming_generator
    (stream_chunks : List String) (message_content : String)
    (sources : List Json) :
    chat_with_context false stream_chunks message_content =
      PyChatValue.generator [] (some message_content) ∧
    (∀ s, chat_with_context false stream_chunks message_content ≠ PyChatValue.pystr s) ∧
    (chat stream_chunks message_content sources).response ≠
      PyChatValue.pystr message_content := by
  refine ⟨rfl, fun s => ?_, ?_⟩
  · intro h
    exact PyChatValue.noConfusion h
  · intro h
    exact PyChatValue.noConfusion h

/-- C6 counterexample: re-ingesting the unchanged one-page document does
not preserve the record count: the first run leaves 1 record, the second
leaves 2, because process_book drew a fresh chunk id, so the upsert
appended instead of overwriting. -/
theorem reingest_count_counterexample :
    (upsertMany [] c6Run1).length = 1 ∧
    (upsertMany (upsertMany [] c6Run1) c6Run2).length = 2 ∧
    (upsertMany (upsertMany [] c6Run1) c6Run2).length ≠ (upsertMany [] c6Run1).length := by
  decide

/-- Store upsert with an id absent from the store appends. -/
theorem upsertOne_of_fresh (store : List IndexedRecord) (r : IndexedRecord)
    (h : ∀ s ∈ store, r.id ≠ s.id) : upsertOne store r = store ++ [r] := by
  induction store with
  | nil => rfl
  | cons s rest ih =>
    have hs : r.id ≠ s.id := h s (by simp)
    unfold upsertOne
    rw [if_neg (fun he => hs he.symm), ih (fun t ht => h t (by simp [ht]))]
    rfl

/-- Store upsert of the same record twice equals upserting it once. -/
theorem upsertOne_idem (store : List IndexedRecord) (r : IndexedRecord) :
    upsertOne (upsertOne store r) r = upsertOne store r := by
  induction store with
  | nil => simp [upsertOne]
  | cons s rest ih =>
    by_cases h : s.id = r.id
    · simp [upsertOne, h]
    · simp only [upsertOne, if_neg h, ih]

/-- Upserting a sequence of records whose ids are pairwise distinct and
absent from the store grows the store by the sequence length. -/
theorem upsertMany_length_of_fresh (records : List IndexedRecord) :
    ∀ store : List IndexedRecord,
      (∀ r ∈ records, ∀ s ∈ store, r.id ≠ s.id) →
      records.Pairwise (fun a b => a.id ≠ b.id) →
      (upsertMany store records).length = store.length + records.length := by
  induction records with
  | nil => intro store _ _; simp [upsertMany]
  | cons r rest ih =>
    intro store hfresh hnodup
    have hstep : upsertOne store r = store ++ [r] :=
      upsertOne_of_fresh store r (hfresh r (by simp))
    have hrest : (upsertMany (store ++ [r]) rest).length =
        (store ++ [r]).length + rest.length := by
      refine ih (store ++ [r]) ?_ hnodup.tail
      intro r2 hr2 s hs
      rcases List.mem_append.mp hs with hs' | hs'
      · exact hfresh r2 (by simp [hr2]) s hs'
      · have : s = r := by simpa using hs'
        subst this
        exact (List.pairwise_cons.mp hnodup).1 r2 hr2 |>.symm
    calc (upsertMany store (r :: rest)).length
        = (upsertMany (upsertOne store r) rest).length := rfl
      _ = (upsertMany (store ++ [r]) rest).length := by rw [hstep]
      _ = (store ++ [r]).length + rest.length := hrest
      _ = store.length + (rest.length + 1) := by simp; omega
      _ = store.length + (r :: rest).length := by simp

/-- C6 amended: upsert by id is idempotent at the store level, but
process_book draws a fresh uuid4 chunk id for every chunk on every run,
so re-ingesting an unchanged document whose new ids are disjoint from
the stored ones adds one record per chunk: the count after the second
run exceeds the first-run count by the chunk count instead of matching
it. -/
theorem upsert_idempotent_but_reingest_grows
    (store : List IndexedRecord) (r : IndexedRecord)
    (chunker : String → List String) (filename : String)
    (pages : List (Nat × String)) (u1 u2 : Nat → String)
    (hfresh : ∀ r2 ∈ process_book_records chunker filename pages u2,
      ∀ s ∈ upsertMany [] (process_book_records chunker filename pages u1),
        r2.id ≠ s.id)
    (hnodup : (process_book_records chunker filename pages u2).Pairwise
      (fun a b => a.id ≠ b.id)) :
    upsertOne (upsertOne store r) r = upsertOne store r ∧
    (upsertMany (upsertMany [] (process_book_records chunker filename pages u1))
        (process_book_records chunker filename pages u2)).length =
      (upsertMany [] (process_book_records chunker filename pages u1)).length +
        (process_book_records chunker filename pages u2).length :=
  ⟨upsertOne_idem store r,
   upsertMany_length_of_fresh _ _ hfresh hnodup⟩

/-- C6 amended witness: the theorem instantiated at the two concrete
runs of the one-page document. -/
theorem upsert_idempotent_but_reingest_grows_witness :
    upsertOne (upsertOne [] ⟨"w", "t", 1, 0, "f.pdf", "Unknown"⟩)
        ⟨"w", "t", 1, 0, "f.pdf", "Unknown"⟩ =
      upsertOne [] ⟨"w", "t", 1, 0, "f.pdf", "Unknown"⟩ ∧
    (upsertMany (upsertMany [] (process_book_records oneChunkPerPage
        "class8_science.pdf" c6Pages (fun k => "run1-" ++ toString k)))
        (process_book_records oneChunkPerPage "class8_science.pdf" c6Pages
          (fun k => "run2-" ++ toString k))).length =
      (upsertMany [] (process_book_records oneChunkPerPage "class8_science.pdf"
        c6Pages (fun k => "run1-" ++ toString k))).length +
        (process_book_records oneChunkPerPage "class8_science.pdf" c6Pages
          (fun k => "run2-" ++ toString k)).length :=
  upsert_idempotent_but_reingest_grows [] ⟨"w", "t", 1, 0, "f.pdf", "Unknown"⟩
    oneChunkPerPage "class8_science.pdf" c6Pages
    (fun k => "run1-" ++ toString k) (fun k => "run2-" ++ toString k)
    (by decide) (by decide)

/-- Sequencing in the Except monad succeeds exactly when every step
succeeds. -/
theorem forM_except_ok_iff {α : Type} (f : α → Except String Unit) (l : List α) :
    l.forM f = Except.ok () ↔ ∀ a ∈ l, f a = Except.ok () := by
  induction l with
  | nil => exact ⟨fun _ a ha => absurd ha (List.not_mem_nil a), fun _ => rfl⟩
  | cons a rest ih =>
    have hunf : (a :: rest).forM f = f a >>= fun _ => rest.forM f := rfl
    rw [hunf]
    cases hfa : f a with
    | error e =>
      constructor
      · intro h
        exact absurd (show Except.error e = Except.ok () from h) (by simp)
      · intro h
        have hcontra := h a (List.mem_cons_self a rest)
        rw [hfa] at hcontra
        exact Except.noConfusion hcontra
    | ok u =>
      cases u
      have hbind : ((Except.ok PUnit.unit : Except String Unit) >>= fun _ => rest.forM f) =
          rest.forM f := rfl
      rw [hbind]
      constructor
      · intro h b hb
        rcases List.mem_cons.mp hb with rfl | hb'
        · exact hfa
        · exact ih.mp h b hb'
      · intro h
        exact ih.mpr (fun b hb => h b (List.mem_cons_of_mem a hb))

/-- Fold characterisation of the per-document loop, for any starting
accumulator. -/
theorem ingest_foldl (process : String → Except String Nat)
    (docs : List String) : ∀ acc : Nat × List String,
    docs.foldl (ingest_step process) acc =
      (acc.1 + (docs.map (fun d => okChunkCount (process d))).sum,
       acc.2 ++ docs.filter (isFailedDoc process)) := by
  induction docs with
  | nil => intro acc; simp
  | cons d rest ih =>
    intro acc
    cases hp : process d with
    | ok n =>
      have hstep : ingest_step process acc d = (acc.1 + n, acc.2) := by
        simp [ingest_step, hp]
      have hfail : isFailedDoc process d = false := by simp [isFailedDoc, hp]
      rw [List.foldl_cons, hstep, ih]
      simp only [Prod.mk.injEq]
      refine ⟨?_, ?_⟩
      · simp [okChunkCount, hp]
        omega
      · simp [List.filter_cons, hfail]
    | error e =>
      have hstep : ingest_step process acc d = (acc.1, acc.2 ++ [d]) := by
        simp [ingest_step, hp]
      have hfail : isFailedDoc process d = true := by simp [isFailedDoc, hp]
      rw [List.foldl_cons, hstep, ih]
      simp only [Prod.mk.injEq]
      refine ⟨?_, ?_⟩
      · simp [okChunkCount, hp]
      · simp [List.filter_cons, hfail]

/-- C7: the corpus run visits every document of the sorted list even
when some fail: the total is the sum of the chunk counts of the
successful documents, the failure report lists exactly the failed
documents, and, inside one document, the batch upsert succeeds exactly
when every batch succeeds, so the first failing batch aborts only that
document (its exception is the error the outer loop catches). -/
theorem ingest_all_books_partial_failure
    (process : String → Except String Nat) (pdf_files : List String) :
    (ingest_all_books process pdf_files).1 =
      ((pdf_files.mergeSort (fun a b => decide (a ≤ b))).map
        (fun d => okChunkCount (process d))).sum ∧
    (ingest_all_books process pdf_files).2 =
      (pdf_files.mergeSort (fun a b => decide (a ≤ b))).filter (isFailedDoc process) ∧
    (∀ (upsertBatch : List IndexedRecord → Except String Unit)
        (vectors : List IndexedRecord) (batch_size : Nat),
      upsert_batches upsertBatch vectors batch_size = Except.ok () ↔
      ∀ i ∈ List.range ((vectors.length + batch_size - 1) / batch_size),
        upsertBatch ((vectors.drop (i * batch_size)).take batch_size) = Except.ok ()) := by
  refine ⟨?_, ?_, ?_⟩
  · rw [ingest_all_books, ingest_foldl]
    simp
  · rw [ingest_all_books, ingest_foldl]
    simp
  · intro upsertBatch vectors batch_size
    exact forM_except_ok_iff _ _

end PrathamInc

